import Mathlib

/-
Verification of the fix-workflow orchestrator of the Open-Source-Dev
repository (src/src/orchestrator/graph.ts, src/src/orchestrator/workflow.ts,
src/src/agents/reviewer/index.ts, src/src/sandbox/e2b.ts,
src/src/tools/search/ripgrep.ts) against its natural-language specification.

The TypeScript code is shallowly embedded: each LangGraph node function
becomes a Lean function from the agent state to a state update, the
per-field channel merge functions of createFixGraph become applyUpdate,
and the graph runner becomes a fuel-indexed run function over the edge
list plus the two conditional-edge predicates.  External collaborators
(Gemini-backed agents, GitHub, the E2B sandbox, ripgrep) are modelled as
oracles supplying the value each call would return.
-/

namespace OSSDev

/-- JS truthiness of an optional string: defined and nonempty. -/
def jsTruthyStr (s : Option String) : Bool :=
  match s with
  | some v => v ≠ ""
  | none => false

/-- JS `a || b` where a is an optional string: falls through on undefined and
on the empty string. -/
def jsOrStr (a : Option String) (b : String) : String :=
  match a with
  | some v => if v = "" then b else v
  | none => b

/-- src/unnamed/part_006: interface IssueAnalysis (severity and category
enumerations kept as strings). -/
structure IssueAnalysis where
  problem : String
  expected : String
  actual : String
  keywords : List String
  mentionedFiles : List String
  severity : String
  category : String
  deriving Repr, DecidableEq

/-- src/unnamed/part_006: interface RepoFingerprint. -/
structure RepoFingerprint where
  language : String
  runtime : String
  packageManager : String
  installCommand : String
  testCommand : String
  deriving Repr, DecidableEq

/-- src/unnamed/part_006: interface CodeSnippet.  The relevanceScore field
(a floating-point number, always 1.0 in ripgrep.ts and unread by the
orchestrator) is omitted from the embedding. -/
structure CodeSnippet where
  file : String
  startLine : Nat
  endLine : Nat
  content : String
  deriving Repr, DecidableEq

/-- src/unnamed/part_006: interface SearchQuery. -/
structure SearchQuery where
  pattern : String
  fileType : String
  contextLines : Nat
  reason : String
  deriving Repr, DecidableEq

/-- src/unnamed/part_006: interface CodeFix. -/
structure CodeFix where
  file : String
  content : String
  deriving Repr, DecidableEq

/-- src/unnamed/part_006: interface TestResult. -/
structure TestResult where
  passed : Bool
  output : String
  error : String
  exitCode : Int
  duration : Nat
  deriving Repr, DecidableEq

/-- src/src/agents/reviewer/index.ts: interface ReviewResult (the category
enumeration kept as a string). -/
structure ReviewResult where
  approved : Bool
  feedback : String
  category : String
  deriving Repr, DecidableEq

/-- The outcome of one sandbox command execution, as surfaced by
`sandbox.commands.run` in E2BSandbox.runTests (src/src/sandbox/e2b.ts). -/
structure SandboxRun where
  exitCode : Int
  stdout : String
  stderr : String
  duration : Nat
  deriving Repr, DecidableEq

/-- src/unnamed/part_006: interface AgentState.  The sandbox handle is an
opaque external resource; only its presence is observable to the graph
code (`if (!state.sandbox)` checks), so it is embedded as a Bool. -/
structure AgentState where
  issueUrl : String
  issueAnalysis : Option IssueAnalysis
  repoPath : Option String
  fingerprint : Option RepoFingerprint
  contextSnippets : List CodeSnippet
  currentFix : Option CodeFix
  testResults : List TestResult
  attempts : Nat
  maxAttempts : Nat
  sandboxPresent : Bool
  status : String
  prUrl : Option String
  error : Option String
  reviewFeedback : Option String
  dryRun : Bool
  projectMap : Option String
  deriving Repr, DecidableEq

/-- One node's returned Partial update of the agent state.  A field set to
`some v` is a write of the defined value v.  A field left `none` covers both
an absent key and a key written as `undefined`: the channel reducers of
createFixGraph are `(x, y) => y ?? x` for every field below except
testResults, so an undefined write and an absent key both leave the previous
channel value in place, and the two cases are deliberately collapsed.
testResults uses the reducer `(x, y) => x.concat(y)`, so its update is the
list of appended entries (empty when the key is absent). -/
structure StateUpdate where
  issueAnalysis : Option IssueAnalysis := none
  fingerprint : Option RepoFingerprint := none
  contextSnippets : Option (List CodeSnippet) := none
  currentFix : Option CodeFix := none
  testResults : List TestResult := []
  attempts : Option Nat := none
  status : Option String := none
  prUrl : Option String := none
  error : Option String := none
  reviewFeedback : Option String := none
  projectMap : Option String := none
  deriving Repr

/-- The channel-merge step of createFixGraph (src/src/orchestrator/graph.ts,
channels block): every declared channel except testResults, maxAttempts and
sandbox merges with `(x, y) => y ?? x`; testResults merges with
`(x, y) => x.concat(y)`; maxAttempts and sandbox merge with `(x, y) => x`
and so never change.  issueUrl and dryRun are never written by any node. -/
def applyUpdate (s : AgentState) (u : StateUpdate) : AgentState :=
  { s with
    issueAnalysis := match u.issueAnalysis with | some v => some v | none => s.issueAnalysis
    fingerprint := match u.fingerprint with | some v => some v | none => s.fingerprint
    contextSnippets := match u.contextSnippets with | some v => v | none => s.contextSnippets
    currentFix := match u.currentFix with | some v => some v | none => s.currentFix
    testResults := s.testResults ++ u.testResults
    attempts := match u.attempts with | some v => v | none => s.attempts
    status := match u.status with | some v => v | none => s.status
    prUrl := match u.prUrl with | some v => some v | none => s.prUrl
    error := match u.error with | some v => some v | none => s.error
    reviewFeedback := match u.reviewFeedback with | some v => some v | none => s.reviewFeedback
    projectMap := match u.projectMap with | some v => some v | none => s.projectMap }

/-- Behaviour of the external collaborators during one run, indexed by call
number where a collaborator is called repeatedly.  searchResults gives the
snippets a query contributes to runSearch in searchCodeNode; a query whose
search throws contributes nothing (the catch logs and continues), which is
covered by an empty contribution. -/
structure Collaborators where
  analysis : IssueAnalysis
  fingerprint : RepoFingerprint
  projectMap : String
  scoutQueries : List SearchQuery
  searchResults : SearchQuery → List CodeSnippet
  fix : Nat → CodeFix
  review : Nat → ReviewResult
  testRun : Nat → SandboxRun
  submit : Except String String

/-- src/src/orchestrator/graph.ts: analyzeIssueNode.  The issue fetch and
the analyzer are external collaborators; the analyzer degrades to a
heuristic result rather than raising, so the node's effect on the state is
to set issueAnalysis.  (A tracker-fetch failure would abort the whole run
as an unhandled exception; no claim here concerns that path.) -/
def analyzeIssueNode (c : Collaborators) (_s : AgentState) : StateUpdate :=
  { issueAnalysis := some c.analysis }

/-- src/src/orchestrator/graph.ts: detectStackNode.  Throws when
state.repoPath is JS-falsy (undefined or empty). -/
def detectStackNode (c : Collaborators) (s : AgentState) : Except String StateUpdate :=
  if jsTruthyStr s.repoPath then .ok { fingerprint := some c.fingerprint }
  else .error "Repo path missing"

/-- src/src/orchestrator/graph.ts, searchCodeNode:
`state.issueAnalysis?.keywords || []`. -/
def analysisKeywords (s : AgentState) : List String :=
  match s.issueAnalysis with
  | some a => a.keywords
  | none => []

/-- src/src/orchestrator/graph.ts, searchCodeNode: the Deep Search fallback
query set, one query per issueAnalysis keyword, contextLines fixed at 10,
fileType set to the fingerprint language with JS-falsy fallback to ts. -/
def broadQueries (s : AgentState) : List SearchQuery :=
  (analysisKeywords s).map fun k =>
    { pattern := k
      fileType := jsOrStr (s.fingerprint.map RepoFingerprint.language) "ts"
      contextLines := 10
      reason := "Broad keyword search" }

/-- src/src/tools/search/ripgrep.ts, RipgrepSearch.search: the argument
list gains the narrowing glob `-g *.<fileType>` exactly when
options.fileType is JS-truthy, i.e. a nonempty string. -/
def ripgrepAppliesFileTypeGlob (q : SearchQuery) : Bool :=
  q.fileType ≠ ""

/-- src/src/orchestrator/graph.ts: searchCodeNode.  Throws when
issueAnalysis, fingerprint or repoPath is missing.  runSearch concatenates
the per-query collaborator results in query order (a query whose search
throws is caught, logged and contributes nothing, which the searchResults
oracle covers with an empty list).  When the primary scout queries yield
zero snippets the broadQueries fallback is searched instead; an empty final
result is returned without error. -/
def searchCodeNode (c : Collaborators) (s : AgentState) : Except String StateUpdate :=
  if s.issueAnalysis.isNone || s.fingerprint.isNone || !jsTruthyStr s.repoPath then
    .error "Missing data for search"
  else
    let pm := jsOrStr s.projectMap c.projectMap
    let primary := (c.scoutQueries.map c.searchResults).flatten
    let snippets :=
      if primary = [] then ((broadQueries s).map c.searchResults).flatten else primary
    .ok { contextSnippets := some snippets, projectMap := some pm }

/-- src/src/orchestrator/graph.ts: generateFixNode.  Increments attempts by
one, stores the engineer collaborator's fix, and writes
`reviewFeedback: undefined` — an undefined write, which the channel reducer
`(x, y) => y ?? x` resolves to the previous value, so the update is encoded
as no write to reviewFeedback (see StateUpdate). -/
def generateFixNode (c : Collaborators) (genIdx : Nat) (s : AgentState) : StateUpdate :=
  { currentFix := some (c.fix genIdx)
    attempts := some (s.attempts + 1)
    reviewFeedback := none }

/-- src/src/orchestrator/graph.ts: reviewFixNode.  Throws when currentFix
or issueAnalysis is missing.  On approval writes
`reviewFeedback: undefined` (encoded as no write, as in generateFixNode);
on rejection writes the verdict's feedback text. -/
def reviewFixNode (c : Collaborators) (revIdx : Nat) (s : AgentState) :
    Except String StateUpdate :=
  if s.currentFix.isNone || s.issueAnalysis.isNone then
    .error "Missing data for review"
  else
    let r := c.review revIdx
    if r.approved then .ok { reviewFeedback := none }
    else .ok { reviewFeedback := some r.feedback }

/-- src/src/sandbox/e2b.ts, E2BSandbox.runTests: builds the TestResult from
one sandbox command execution; passed is exitCode == 0, output is stdout,
error is stderr. -/
def mkTestResult (r : SandboxRun) : TestResult :=
  { passed := decide (r.exitCode = 0)
    output := r.stdout
    error := r.stderr
    exitCode := r.exitCode
    duration := r.duration }

/-- src/src/orchestrator/graph.ts: verifyFixNode.  Throws when the sandbox
handle, currentFix or fingerprint is missing.  Writes the fix into the
sandbox, runs the test command, and appends exactly one TestResult; on a
passing run sets status to success, otherwise sets status to running. -/
def verifyFixNode (c : Collaborators) (vIdx : Nat) (s : AgentState) :
    Except String StateUpdate :=
  if !s.sandboxPresent || s.currentFix.isNone || s.fingerprint.isNone then
    .error "Sandbox or Fix missing"
  else
    let result := mkTestResult (c.testRun vIdx)
    if result.passed then .ok { status := some "success", testResults := [result] }
    else .ok { status := some "running", testResults := [result] }

/-- The externally visible operations of the non-dry-run submit sequence in
submitFixNode: sandbox read-back, local file write, git branch/config/
commit/push commands, and the pull-request creation call. -/
inductive SubmitEffect
  | sandboxRead
  | localWrite
  | gitCheckout
  | gitAdd
  | gitConfigName
  | gitConfigEmail
  | gitCommit
  | gitPush
  | createPR
  deriving Repr, DecidableEq

/-- The full non-dry-run submit sequence in source order. -/
def submitSequenceEffects : List SubmitEffect :=
  [.sandboxRead, .localWrite, .gitCheckout, .gitAdd, .gitConfigName,
   .gitConfigEmail, .gitCommit, .gitPush, .createPR]

/-- src/src/orchestrator/graph.ts: submitFixNode.  In dry-run mode it
returns the sentinel PR value and performs none of the submit operations.
Otherwise every throw inside the try body (including the missing-data
precondition throw) is caught and recorded as
`PR creation failed: <message>` in the error field, with no write to
status.  The submit collaborator stands for the whole copy-back, branch,
commit, push and PR sequence; on failure the effect trace is kept coarse
(some prefix of the sequence was attempted) — the theorems below only use
that the dry-run branch performs no operation at all. -/
def submitFixNode (c : Collaborators) (s : AgentState) :
    StateUpdate × List SubmitEffect :=
  if s.dryRun then ({ prUrl := some "DRY-RUN-NO-PR" }, [])
  else if s.currentFix.isNone || !jsTruthyStr s.repoPath || !s.sandboxPresent then
    ({ error := some "PR creation failed: Missing data for submission" }, [])
  else
    match c.submit with
    | .ok url => ({ prUrl := some url }, submitSequenceEffects)
    | .error m => ({ error := some ("PR creation failed: " ++ m) }, submitSequenceEffects)

/-- The graph's node names (src/src/orchestrator/graph.ts, addNode calls). -/
inductive Node
  | analyze_issue
  | detect_stack
  | search_code
  | generate_fix
  | review_fix
  | verify_fix
  | submit_fix
  deriving Repr, DecidableEq

/-- src/src/orchestrator/graph.ts: the conditional edge out of review_fix,
`state.reviewFeedback ? "generate_fix" : "verify_fix"` — JS truthiness, so
an empty feedback string routes to verify_fix. -/
def reviewEdgeTarget (s : AgentState) : Node :=
  if jsTruthyStr s.reviewFeedback then .generate_fix else .verify_fix

/-- src/src/orchestrator/graph.ts: shouldContinue, the conditional edge out
of verify_fix; none is END.  The source also assigns
state.status = 'failed' on the END branch, but that assignment mutates the
edge function's read-only state snapshot, not a channel, so it does not
reach the final channel state; the entry point maps every non-success final
state to a failed workflow result regardless. -/
def shouldContinue (s : AgentState) : Option Node :=
  if s.status = "success" then some .submit_fix
  else if s.attempts ≥ s.maxAttempts then none
  else some .generate_fix

/-- A run configuration: the agent state plus instrumentation — how many
times each loop node has completed (indexing the call-numbered oracles) and,
for each entry into generate_fix, the predecessor node together with the
value of attempts at the moment generate_fix begins. -/
structure RunState where
  st : AgentState
  genCalls : Nat
  reviewCalls : Nat
  verifyCalls : Nat
  genEntries : List (Node × Nat)
  deriving Repr, DecidableEq

/-- Record an entry into generate_fix: the predecessor node and the attempts
value of the state the node will start from. -/
def recordEntry (fromNode : Node) (next : Option Node) (rs : RunState) : RunState :=
  match next with
  | some Node.generate_fix => { rs with genEntries := (fromNode, rs.st.attempts) :: rs.genEntries }
  | _ => rs

/-- One superstep of the compiled graph: execute the node, merge its update
through the channel reducers, and pick the next node from the edge list
(src/src/orchestrator/graph.ts, createFixGraph: the addEdge calls plus the
two addConditionalEdges calls).  An exception thrown by a node aborts the
run with the pre-node state. -/
def step (c : Collaborators) (n : Node) (rs : RunState) :
    Except (RunState × String) (RunState × Option Node) :=
  match n with
  | .analyze_issue =>
      let rs := { rs with st := applyUpdate rs.st (analyzeIssueNode c rs.st) }
      .ok (rs, some .detect_stack)
  | .detect_stack =>
      match detectStackNode c rs.st with
      | .error m => .error (rs, m)
      | .ok u =>
        let rs := { rs with st := applyUpdate rs.st u }
        .ok (rs, some .search_code)
  | .search_code =>
      match searchCodeNode c rs.st with
      | .error m => .error (rs, m)
      | .ok u =>
        let rs := { rs with st := applyUpdate rs.st u }
        .ok (recordEntry n (some .generate_fix) rs, some .generate_fix)
  | .generate_fix =>
      let u := generateFixNode c rs.genCalls rs.st
      let rs := { rs with st := applyUpdate rs.st u, genCalls := rs.genCalls + 1 }
      .ok (rs, some .review_fix)
  | .review_fix =>
      match reviewFixNode c rs.reviewCalls rs.st with
      | .error m => .error (rs, m)
      | .ok u =>
        let rs := { rs with st := applyUpdate rs.st u, reviewCalls := rs.reviewCalls + 1 }
        let next := some (reviewEdgeTarget rs.st)
        .ok (recordEntry n next rs, next)
  | .verify_fix =>
      match verifyFixNode c rs.verifyCalls rs.st with
      | .error m => .error (rs, m)
      | .ok u =>
        let rs := { rs with st := applyUpdate rs.st u, verifyCalls := rs.verifyCalls + 1 }
        let next := shouldContinue rs.st
        .ok (recordEntry n next rs, next)
  | .submit_fix =>
      let rs := { rs with st := applyUpdate rs.st (submitFixNode c rs.st).1 }
      .ok (rs, none)

/-- The observable end of a run: the graph reached END, a node threw, or
the given step budget ran out with the run still going (the graph itself
imposes no bound of its own on the loop). -/
inductive Outcome
  | finished (rs : RunState)
  | errored (rs : RunState) (msg : String)
  | outOfFuel (rs : RunState) (n : Node)
  deriving Repr, DecidableEq

/-- The run configuration an outcome carries. -/
def Outcome.runState : Outcome → RunState
  | .finished rs => rs
  | .errored rs _ => rs
  | .outOfFuel rs _ => rs

/-- Whether the run was still going when the step budget ran out. -/
def Outcome.isOutOfFuel : Outcome → Bool
  | .outOfFuel _ _ => true
  | _ => false

/-- Whether the run reached END. -/
def Outcome.isFinished : Outcome → Bool
  | .finished _ => true
  | _ => false

/-- Drive the compiled graph from a node for at most the given number of
supersteps (the graph runner loop). -/
def run (c : Collaborators) : Nat → Node → RunState → Outcome
  | 0, n, rs => .outOfFuel rs n
  | fuel + 1, n, rs =>
    match step c n rs with
    | .error (rs2, m) => .errored rs2 m
    | .ok (rs2, none) => .finished rs2
    | .ok (rs2, some n2) => run c fuel n2 rs2

/-- src/unnamed/part_006: interface WorkflowOptions. -/
structure WorkflowOptions where
  dryRun : Bool
  maxAttempts : Nat
  verbose : Bool
  useLocal : Bool
  deriving Repr, DecidableEq

/-- src/src/orchestrator/workflow.ts: the initialState record built by
runFixWorkflow before invoking the graph — the repository is cloned, the
stack pre-detected, and the sandbox provisioned, so repoPath, fingerprint
and the sandbox handle are present, attempts is 0, status is running, and
maxAttempts comes from the options. -/
def initialAgentState (issueUrl repoPath : String) (opts : WorkflowOptions)
    (c : Collaborators) : AgentState :=
  { issueUrl := issueUrl
    issueAnalysis := none
    repoPath := some repoPath
    fingerprint := some c.fingerprint
    contextSnippets := []
    currentFix := none
    testResults := []
    attempts := 0
    maxAttempts := opts.maxAttempts
    sandboxPresent := true
    status := "running"
    prUrl := none
    error := none
    reviewFeedback := none
    dryRun := opts.dryRun
    projectMap := none }

/-- The run configuration the graph is invoked with. -/
def initialRunState (issueUrl repoPath : String) (opts : WorkflowOptions)
    (c : Collaborators) : RunState :=
  { st := initialAgentState issueUrl repoPath opts c
    genCalls := 0
    reviewCalls := 0
    verifyCalls := 0
    genEntries := [] }

/-- A full graph invocation from the entry point analyze_issue
(src/src/orchestrator/graph.ts: setEntryPoint) on the entry point's
initial state, with the given step budget. -/
def invokeGraph (c : Collaborators) (fuel : Nat) (issueUrl repoPath : String)
    (opts : WorkflowOptions) : Outcome :=
  run c fuel .analyze_issue (initialRunState issueUrl repoPath opts c)

/-- src/unnamed/part_006: interface WorkflowResult.  duration is wall-clock
time (not modelled); cost is the literal 0 the source returns. -/
structure WorkflowResult where
  status : String
  prUrl : Option String
  error : Option String
  attempts : Nat
  cost : Nat
  deriving Repr, DecidableEq

/-- src/src/orchestrator/workflow.ts: the mapping of the graph's final
state to the returned WorkflowResult — a success record when status is
success, otherwise a failed record whose error is
`finalState.error || "Workflow completed without reaching success state."`. -/
def mapFinalState (s : AgentState) : WorkflowResult :=
  if s.status = "success" then
    { status := "success", prUrl := s.prUrl, error := none,
      attempts := s.attempts, cost := 0 }
  else
    { status := "failed", prUrl := none,
      error := some (jsOrStr s.error "Workflow completed without reaching success state."),
      attempts := s.attempts, cost := 0 }

/-- Outcome of `graph.invoke` as seen by the entry point: a final state, or
a thrown exception carrying a message. -/
inductive InvokeOutcome
  | ok (s : AgentState)
  | ex (msg : String)

/-- src/src/orchestrator/workflow.ts: the try/catch skeleton of
runFixWorkflow around the graph invocation, returning the WorkflowResult
together with the number of sandbox.cleanup() calls made.  cleanupOutcome
is the behaviour of one cleanup call (taken the same for every call of one
run).  On the normal path cleanup runs unguarded before the result mapping,
so a cleanup failure there reaches the outer catch, which then makes one
more cleanup call inside its own try/catch whose failure is only logged.
When an exception from the loop reaches the catch, the guarded cleanup call
is made (the sandbox variable is assigned before the loop starts, which
sandboxPresent records) and the returned record always carries the message
of the error that reached the catch, with attempts 0 as in the source. -/
def runFixWorkflowModel (inv : InvokeOutcome) (sandboxPresent : Bool)
    (cleanupOutcome : Except String Unit) : WorkflowResult × Nat :=
  match inv with
  | .ex m =>
      ({ status := "failed", prUrl := none, error := some m,
         attempts := 0, cost := 0 },
       if sandboxPresent then 1 else 0)
  | .ok s =>
      match cleanupOutcome with
      | .ok _ => (mapFinalState s, 1)
      | .error m =>
          ({ status := "failed", prUrl := none, error := some m,
             attempts := 0, cost := 0 }, 2)

/-- src/src/agents/reviewer/index.ts: ReviewerAgent.review.  The structured
model invocation either yields a verdict or throws; the catch logs and
returns the fixed manual-audit verdict instead of propagating the error. -/
def reviewerReview (invocation : Except String ReviewResult) : ReviewResult :=
  match invocation with
  | .ok r => r
  | .error _ =>
      { approved := false
        feedback := "Automated review system unavailable. Manual audit required."
        category := "logic" }

/-- Measurement over the instrumented run: every recorded entry into
generate_fix satisfied attempts less than or equal to maxAttempts
(maxAttempts never changes during a run, so reading it from the final
state is reading the run's ceiling). -/
def allGenEntriesBounded (rs : RunState) : Bool :=
  rs.genEntries.all fun e => decide (e.2 ≤ rs.st.maxAttempts)

/-- Measurement over the instrumented run: every recorded entry into
generate_fix whose predecessor is not review_fix (i.e. the initial edge
from search_code and the retry route out of verify_fix) satisfied
attempts less than or equal to maxAttempts. -/
def nonReviewGenEntriesBounded (rs : RunState) : Bool :=
  rs.genEntries.all fun e => e.1 == Node.review_fix || decide (e.2 ≤ rs.st.maxAttempts)

/-
Concrete instances used by counterexamples and witnesses.
-/

/-- A concrete issue analysis with two keywords. -/
def cAna : IssueAnalysis :=
  { problem := "p", expected := "e", actual := "a", keywords := ["alpha", "beta"],
    mentionedFiles := [], severity := "low", category := "bug" }

/-- A concrete fingerprint whose language is python. -/
def cFp : RepoFingerprint :=
  { language := "python", runtime := "node", packageManager := "pip",
    installCommand := "pip install -e .", testCommand := "pytest" }

/-- A rejecting review verdict with nonempty feedback. -/
def cRejVerdict : ReviewResult := { approved := false, feedback := "no", category := "logic" }

/-- An approving review verdict. -/
def cOkVerdict : ReviewResult := { approved := true, feedback := "ok", category := "ok" }

/-- Collaborators whose reviewer rejects every fix with nonempty feedback;
scout queries find nothing, the sandbox test run fails, submission would
succeed. -/
def alwaysRejectC : Collaborators :=
  { analysis := cAna, fingerprint := cFp, projectMap := "map", scoutQueries := [],
    searchResults := fun _ => [], fix := fun _ => { file := "f.py", content := "x" },
    review := fun _ => cRejVerdict,
    testRun := fun _ => { exitCode := 1, stdout := "", stderr := "boom", duration := 3 },
    submit := Except.ok "https-pr-url" }

/-- Options with maxAttempts 1. -/
def optsMax1 : WorkflowOptions :=
  { dryRun := false, maxAttempts := 1, verbose := false, useLocal := false }

/-- Options with maxAttempts 5 (the channel default). -/
def optsMax5 : WorkflowOptions :=
  { dryRun := false, maxAttempts := 5, verbose := false, useLocal := false }

/-- Dry-run options. -/
def optsDry : WorkflowOptions :=
  { dryRun := true, maxAttempts := 5, verbose := false, useLocal := false }

/-- Collaborators whose reviewer rejects the first fix with feedback
"needs work" and approves every later one. -/
def rejectThenApproveC : Collaborators :=
  { alwaysRejectC with
    review := fun n =>
      if n = 0 then { approved := false, feedback := "needs work", category := "logic" }
      else cOkVerdict }

/-- Collaborators whose submission sequence fails with message "boom". -/
def submitFailC : Collaborators :=
  { alwaysRejectC with review := fun _ => cOkVerdict, submit := Except.error "boom" }

/-- The workflow entry point's initial state for a plain run. -/
def sBase : AgentState := initialAgentState "u" "r" optsMax5 alwaysRejectC

/-- A state meeting verify_fix's preconditions. -/
def sVerify : AgentState :=
  { sBase with currentFix := some { file := "f.py", content := "x" } }

/-- A verified state about to submit: status success, not dry-run. -/
def sSubmit : AgentState :=
  { sBase with currentFix := some { file := "f.py", content := "x" }, status := "success" }

/-- A dry-run run configuration at submit_fix. -/
def rsDry : RunState := initialRunState "u" "r" optsDry alwaysRejectC

/-- A state meeting search_code's preconditions, with fingerprint language
python and keywords alpha and beta. -/
def sSearch : AgentState := { sBase with issueAnalysis := some cAna }

/-- The run configuration after the analyze_issue step of a run whose
repository path is the empty string: the next step, detect_stack, throws
"Repo path missing". -/
def rsAfterAnalyzeEmptyRepo : RunState :=
  { st := applyUpdate (initialAgentState "u" "" optsMax1 alwaysRejectC)
      (analyzeIssueNode alwaysRejectC (initialAgentState "u" "" optsMax1 alwaysRejectC))
    genCalls := 0, reviewCalls := 0, verifyCalls := 0, genEntries := [] }

/-- The configurations reachable by a run whose reviewer rejects every fix
with nonempty feedback: the run never enters verify_fix or submit_fix, its
verify counter stays 0, and the preconditions of the next node always
hold. -/
def loopInv (n : Node) (rs : RunState) : Prop :=
  rs.verifyCalls = 0 ∧
  jsTruthyStr rs.st.repoPath = true ∧
  rs.st.fingerprint.isNone = false ∧
  (match n with
   | Node.analyze_issue => True
   | Node.detect_stack => rs.st.issueAnalysis.isNone = false
   | Node.search_code => rs.st.issueAnalysis.isNone = false
   | Node.generate_fix => rs.st.issueAnalysis.isNone = false
   | Node.review_fix => rs.st.issueAnalysis.isNone = false ∧ rs.st.currentFix.isNone = false
   | Node.verify_fix => False
   | Node.submit_fix => False)

/-
Helper lemmas.
-/

lemma jsOrStr_ne_empty (a : Option String) (b : String) (hb : b ≠ "") :
    jsOrStr a b ≠ "" := by
  unfold jsOrStr
  cases a with
  | none => exact hb
  | some v =>
    by_cases hv : v = ""
    · simp [hv, hb]
    · simp [hv]

/-
Claims.
-/

/-- C10: a failure of the reviewer's model invocation never propagates to
the orchestrator: review returns the fixed manual-audit verdict with
approved false and category logic, and — once review_fix stores that
nonempty feedback — the conditional edge out of review_fix routes back to
generate_fix, exactly like an ordinary rejection. -/
theorem c10_reviewer_outage_is_ordinary_rejection (m : String) (s : AgentState) :
    (reviewerReview (Except.error m)).approved = false ∧
    (reviewerReview (Except.error m)).feedback =
      "Automated review system unavailable. Manual audit required." ∧
    (reviewerReview (Except.error m)).category = "logic" ∧
    reviewEdgeTarget
      (applyUpdate s { reviewFeedback := some (reviewerReview (Except.error m)).feedback }) =
      Node.generate_fix := by
  refine ⟨rfl, rfl, rfl, ?_⟩
  simp [reviewerReview, reviewEdgeTarget, applyUpdate, jsTruthyStr]

/-- C5: with verify_fix's preconditions met, the node returns exactly one
appended TestResult built from the sandbox run, whose passed flag holds
exactly when the exit code is zero; the merged state's status is success on
exit code zero and running otherwise. -/
theorem c5_verify_fix_behaviour (c : Collaborators) (i : Nat) (s : AgentState)
    (h1 : s.sandboxPresent = true) (h2 : s.currentFix.isNone = false)
    (h3 : s.fingerprint.isNone = false) :
    verifyFixNode c i s = Except.ok
      { status := some (if (c.testRun i).exitCode = 0 then "success" else "running")
        testResults := [mkTestResult (c.testRun i)] } ∧
    (mkTestResult (c.testRun i)).passed = decide ((c.testRun i).exitCode = 0) ∧
    (applyUpdate s
      { status := some (if (c.testRun i).exitCode = 0 then "success" else "running")
        testResults := [mkTestResult (c.testRun i)] }).testResults
      = s.testResults ++ [mkTestResult (c.testRun i)] ∧
    (applyUpdate s
      { status := some (if (c.testRun i).exitCode = 0 then "success" else "running")
        testResults := [mkTestResult (c.testRun i)] }).status
      = (if (c.testRun i).exitCode = 0 then "success" else "running") := by
  refine ⟨?_, rfl, rfl, rfl⟩
  unfold verifyFixNode
  simp only [h1, h2, h3]
  by_cases hx : (c.testRun i).exitCode = 0 <;> simp [mkTestResult, hx]

/-- C5 witness: the theorem applied at a concrete state meeting the
preconditions and a concrete failing test run. -/
theorem c5_verify_fix_behaviour_witness :
    sVerify.sandboxPresent = true ∧
    verifyFixNode alwaysRejectC 0 sVerify = Except.ok
      { status := some (if (alwaysRejectC.testRun 0).exitCode = 0 then "success" else "running")
        testResults := [mkTestResult (alwaysRejectC.testRun 0)] } :=
  ⟨rfl, (c5_verify_fix_behaviour alwaysRejectC 0 sVerify rfl rfl rfl).1⟩

/-- C6: a failure anywhere in the submit sequence is caught, its message is
stored in error with the PR-creation prefix, status is not written (the
merge keeps success), and the entry point still maps the final state to a
success result. -/
theorem c6_submit_failure_keeps_success (c : Collaborators) (s : AgentState) (m : String)
    (h1 : s.status = "success") (h2 : s.dryRun = false)
    (h3 : s.currentFix.isNone = false) (h4 : jsTruthyStr s.repoPath = true)
    (h5 : s.sandboxPresent = true) (h6 : c.submit = Except.error m) :
    (applyUpdate s (submitFixNode c s).1).error = some ("PR creation failed: " ++ m) ∧
    (applyUpdate s (submitFixNode c s).1).status = "success" ∧
    (mapFinalState (applyUpdate s (submitFixNode c s).1)).status = "success" := by
  have hnode : (submitFixNode c s).1 = { error := some ("PR creation failed: " ++ m) } := by
    simp [submitFixNode, h2, h3, h4, h5, h6]
  rw [hnode]
  refine ⟨rfl, h1, ?_⟩
  simp [mapFinalState, applyUpdate, h1]

/-- C6 witness: the theorem applied at a concrete verified state with a
submission that fails with message boom. -/
theorem c6_submit_failure_keeps_success_witness :
    sSubmit.status = "success" ∧
    (applyUpdate sSubmit (submitFixNode submitFailC sSubmit).1).error =
      some ("PR creation failed: " ++ "boom") ∧
    (applyUpdate sSubmit (submitFixNode submitFailC sSubmit).1).status = "success" :=
  ⟨rfl,
   (c6_submit_failure_keeps_success submitFailC sSubmit "boom" rfl rfl rfl rfl rfl rfl).1,
   (c6_submit_failure_keeps_success submitFailC sSubmit "boom" rfl rfl rfl rfl rfl rfl).2.1⟩

/-- C9: in dry-run mode submit_fix performs none of the submit-sequence
operations, returns the sentinel PR value, and the following edge ends the
run. -/
theorem c9_dry_run_submit (c : Collaborators) (rs : RunState) (h : rs.st.dryRun = true) :
    submitFixNode c rs.st = ({ prUrl := some "DRY-RUN-NO-PR" }, []) ∧
    (applyUpdate rs.st (submitFixNode c rs.st).1).prUrl = some "DRY-RUN-NO-PR" ∧
    step c Node.submit_fix rs =
      Except.ok ({ rs with st := applyUpdate rs.st { prUrl := some "DRY-RUN-NO-PR" } }, none) := by
  have hnode : submitFixNode c rs.st = ({ prUrl := some "DRY-RUN-NO-PR" }, []) := by
    simp [submitFixNode, h]
  refine ⟨hnode, by simp [hnode, applyUpdate], ?_⟩
  simp [step, hnode]

/-- C9 witness: the theorem applied at the initial run configuration of a
dry-run workflow. -/
theorem c9_dry_run_submit_witness :
    rsDry.st.dryRun = true ∧
    submitFixNode alwaysRejectC rsDry.st = ({ prUrl := some "DRY-RUN-NO-PR" }, []) :=
  ⟨rfl, (c9_dry_run_submit alwaysRejectC rsDry rfl).1⟩

/-- C7 counterexample: on a concrete state with keywords alpha and beta and
fingerprint language python, every fallback query carries fileType python,
which RipgrepSearch.search turns into a narrowing file-type glob — refuting
the claimed absence of file-type narrowing in the fallback query set. -/
theorem c7_fallback_is_fileType_narrowed :
    (broadQueries sSearch).map SearchQuery.fileType = ["python", "python"] ∧
    ((broadQueries sSearch).all fun q => ripgrepAppliesFileTypeGlob q) = true ∧
    (broadQueries sSearch).map SearchQuery.pattern = ["alpha", "beta"] := by
  refine ⟨by decide, by decide, by decide⟩

/-- C7 (amended): when the primary query set yields zero snippets, the step
re-searches with a fallback set derived from the analysis keywords — exactly
one query per keyword, context window fixed at 10 lines, and fileType set to
the fingerprint language (ts when absent or empty), which always triggers
ripgrep's file-type narrowing; an empty fallback result ends the step
successfully with an empty snippet list, not an error. -/
theorem c7_search_fallback_behaviour (c : Collaborators) (s : AgentState)
    (h1 : s.issueAnalysis.isNone = false) (h2 : s.fingerprint.isNone = false)
    (h3 : jsTruthyStr s.repoPath = true)
    (hz : (c.scoutQueries.map c.searchResults).flatten = []) :
    searchCodeNode c s = Except.ok
      { contextSnippets := some ((broadQueries s).map c.searchResults).flatten
        projectMap := some (jsOrStr s.projectMap c.projectMap) } ∧
    (broadQueries s).map SearchQuery.pattern = analysisKeywords s ∧
    ((broadQueries s).all fun q => decide (q.contextLines = 10)) = true ∧
    ((broadQueries s).all fun q =>
        q.fileType == jsOrStr (s.fingerprint.map RepoFingerprint.language) "ts") = true ∧
    ((broadQueries s).all fun q => ripgrepAppliesFileTypeGlob q) = true := by
  refine ⟨?_, ?_, ?_, ?_, ?_⟩
  · simp [searchCodeNode, h1, h2, h3, hz]
  · rw [broadQueries, List.map_map]
    have hcomp : (SearchQuery.pattern ∘ fun k =>
        ({ pattern := k
           fileType := jsOrStr (s.fingerprint.map RepoFingerprint.language) "ts"
           contextLines := 10
           reason := "Broad keyword search" } : SearchQuery)) = fun k => k := rfl
    rw [hcomp, List.map_id']
  · simp [broadQueries, List.all_map, Function.comp]
  · simp [broadQueries, List.all_map, Function.comp]
  · simp only [broadQueries, List.all_map, Function.comp]
    have hne : jsOrStr (s.fingerprint.map RepoFingerprint.language) "ts" ≠ "" :=
      jsOrStr_ne_empty _ _ (by decide)
    simp [ripgrepAppliesFileTypeGlob, hne]

/-- C7 witness: the amended theorem applied at a concrete state whose
primary queries find nothing, showing the successful fallback result. -/
theorem c7_search_fallback_behaviour_witness :
    searchCodeNode alwaysRejectC sSearch = Except.ok
      { contextSnippets := some ((broadQueries sSearch).map alwaysRejectC.searchResults).flatten
        projectMap := some (jsOrStr sSearch.projectMap alwaysRejectC.projectMap) } :=
  (c7_search_fallback_behaviour alwaysRejectC sSearch rfl rfl rfl rfl).1

/-- C2 (code evaluation at the failing input): with a reviewer that rejects
the first fix with feedback "needs work" and approves every later one, the
run still holds reviewFeedback = "needs work" after the second generate_fix
has completed (genCalls = 2, about to re-enter review_fix) — the node's
undefined write is resolved by the reducer to the previous value — and the
stale feedback then routes every later approval back to generate_fix, so
verify_fix is never reached even after 40 supersteps. -/
theorem c2_generate_fix_does_not_clear_feedback :
    (invokeGraph rejectThenApproveC 6 "u" "r" optsMax5).runState.genCalls = 2 ∧
    (invokeGraph rejectThenApproveC 6 "u" "r" optsMax5).runState.st.reviewFeedback =
      some "needs work" ∧
    (invokeGraph rejectThenApproveC 6 "u" "r" optsMax5).isOutOfFuel = true ∧
    (invokeGraph rejectThenApproveC 40 "u" "r" optsMax5).runState.verifyCalls = 0 :=
  ⟨rfl, rfl, rfl, rfl⟩

/-- C1 counterexample: with maxAttempts 1 and an always-rejecting reviewer,
the recorded generate_fix entries include one on the review-rejection route
where attempts is 2, exceeding the ceiling — so the claimed bound fails and
no failed-status cutoff happens on that route. -/
theorem c1_ceiling_violated_on_review_route :
    (invokeGraph alwaysRejectC 8 "u" "r" optsMax1).runState.genEntries =
      [(Node.review_fix, 2), (Node.review_fix, 1), (Node.search_code, 0)] ∧
    (invokeGraph alwaysRejectC 8 "u" "r" optsMax1).runState.st.maxAttempts = 1 ∧
    allGenEntriesBounded (invokeGraph alwaysRejectC 8 "u" "r" optsMax1).runState = false :=
  ⟨rfl, rfl, rfl⟩

/-- C3 counterexample: with maxAttempts 1 and an always-rejecting reviewer,
after 50 supersteps the run is still going — verify_fix has never executed
and attempts has reached 24, far past the ceiling — refuting termination
via the attempts ceiling. -/
theorem c3_rejection_loop_passes_ceiling :
    (invokeGraph alwaysRejectC 50 "u" "r" optsMax1).isOutOfFuel = true ∧
    (invokeGraph alwaysRejectC 50 "u" "r" optsMax1).runState.verifyCalls = 0 ∧
    (invokeGraph alwaysRejectC 50 "u" "r" optsMax1).runState.st.attempts = 24 ∧
    (invokeGraph alwaysRejectC 50 "u" "r" optsMax1).runState.st.maxAttempts = 1 :=
  ⟨rfl, rfl, rfl, rfl⟩

/-- C8: when the graph run raises an unhandled exception, the entry point's
catch block runs sandbox cleanup (one call) and returns a failed result
carrying the original message — whatever the cleanup call's own outcome,
including a cleanup failure, which therefore never masks the original
error. -/
theorem c8_loop_exception_cleanup_and_failed (c : Collaborators) (fuel : Nat)
    (issueUrl repoPath : String) (opts : WorkflowOptions) (rs : RunState) (m : String)
    (ce : Except String Unit)
    (h : invokeGraph c fuel issueUrl repoPath opts = Outcome.errored rs m) :
    runFixWorkflowModel (InvokeOutcome.ex m) true ce =
      ({ status := "failed", prUrl := none, error := some m, attempts := 0, cost := 0 }, 1) :=
  rfl

/-- C8 witness: a concrete run that throws "Repo path missing" at
detect_stack, with a cleanup that itself fails, still yielding the failed
result with the original message. -/
theorem c8_loop_exception_cleanup_and_failed_witness :
    invokeGraph alwaysRejectC 3 "u" "" optsMax1 =
      Outcome.errored rsAfterAnalyzeEmptyRepo "Repo path missing" ∧
    runFixWorkflowModel (InvokeOutcome.ex "Repo path missing") true
        (Except.error "cleanup broke") =
      ({ status := "failed", prUrl := none, error := some "Repo path missing",
         attempts := 0, cost := 0 }, 1) :=
  ⟨rfl,
   c8_loop_exception_cleanup_and_failed alwaysRejectC 3 "u" "" optsMax1
     rsAfterAnalyzeEmptyRepo "Repo path missing" (Except.error "cleanup broke") rfl⟩

/-
Per-node inversion lemmas used by the run-level inductions.
-/

lemma detectStackNode_ok_fields {c : Collaborators} {s : AgentState} {u : StateUpdate}
    (h : detectStackNode c s = Except.ok u) :
    u.testResults = [] ∧ u.attempts = none ∧ u.status = none ∧
    u.reviewFeedback = none ∧ u.fingerprint = some c.fingerprint ∧
    u.issueAnalysis = none := by
  unfold detectStackNode at h
  split at h
  · cases h
    exact ⟨rfl, rfl, rfl, rfl, rfl, rfl⟩
  · cases h

lemma searchCodeNode_ok_fields {c : Collaborators} {s : AgentState} {u : StateUpdate}
    (h : searchCodeNode c s = Except.ok u) :
    u.testResults = [] ∧ u.attempts = none ∧ u.status = none ∧
    u.reviewFeedback = none ∧ u.issueAnalysis = none ∧ u.fingerprint = none ∧
    u.currentFix = none := by
  unfold searchCodeNode at h
  split at h
  · cases h
  · cases h
    exact ⟨rfl, rfl, rfl, rfl, rfl, rfl, rfl⟩

lemma reviewFixNode_ok_fields {c : Collaborators} {i : Nat} {s : AgentState} {u : StateUpdate}
    (h : reviewFixNode c i s = Except.ok u) :
    u.testResults = [] ∧ u.attempts = none ∧ u.status = none ∧
    u.issueAnalysis = none ∧ u.fingerprint = none ∧ u.currentFix = none ∧
    u.reviewFeedback =
      (if (c.review i).approved then none else some (c.review i).feedback) := by
  unfold reviewFixNode at h
  split at h
  · cases h
  · dsimp only at h
    split at h <;> cases h <;> simp_all

lemma verifyFixNode_ok_fields {c : Collaborators} {i : Nat} {s : AgentState} {u : StateUpdate}
    (h : verifyFixNode c i s = Except.ok u) :
    u.attempts = none ∧ u.issueAnalysis = none ∧ u.fingerprint = none ∧
    u.currentFix = none ∧ u.reviewFeedback = none ∧
    u.testResults = [mkTestResult (c.testRun i)] ∧
    u.status = some (if (mkTestResult (c.testRun i)).passed then "success" else "running") := by
  unfold verifyFixNode at h
  split at h
  · cases h
  · dsimp only at h
    split at h <;> cases h <;> simp_all

lemma submitFixNode_update_fields (c : Collaborators) (s : AgentState) :
    (submitFixNode c s).1.testResults = [] ∧ (submitFixNode c s).1.attempts = none ∧
    (submitFixNode c s).1.status = none ∧ (submitFixNode c s).1.reviewFeedback = none ∧
    (submitFixNode c s).1.issueAnalysis = none ∧ (submitFixNode c s).1.currentFix = none := by
  unfold submitFixNode
  split
  · exact ⟨rfl, rfl, rfl, rfl, rfl, rfl⟩
  · split
    · exact ⟨rfl, rfl, rfl, rfl, rfl, rfl⟩
    · split <;> exact ⟨rfl, rfl, rfl, rfl, rfl, rfl⟩

lemma recordEntry_st (a : Node) (b : Option Node) (rs : RunState) :
    (recordEntry a b rs).st = rs.st := by
  unfold recordEntry
  split <;> rfl

lemma recordEntry_verifyCalls (a : Node) (b : Option Node) (rs : RunState) :
    (recordEntry a b rs).verifyCalls = rs.verifyCalls := by
  unfold recordEntry
  split <;> rfl

lemma recordEntry_genCalls (a : Node) (b : Option Node) (rs : RunState) :
    (recordEntry a b rs).genCalls = rs.genCalls := by
  unfold recordEntry
  split <;> rfl

lemma run_testResults_len (c : Collaborators) :
    ∀ (fuel : Nat) (n : Node) (rs : RunState),
    rs.st.testResults.length = rs.verifyCalls →
    (run c fuel n rs).runState.st.testResults.length =
      (run c fuel n rs).runState.verifyCalls := by
  intro fuel
  induction fuel with
  | zero =>
    intro n rs h
    simpa [run, Outcome.runState] using h
  | succ fuel ih =>
    intro n rs h
    cases n with
    | analyze_issue =>
      simp only [run, step]
      exact ih _ _ (by simp [applyUpdate, analyzeIssueNode, h])
    | detect_stack =>
      simp only [run, step]
      cases hd : detectStackNode c rs.st with
      | error m => simpa [Outcome.runState] using h
      | ok u =>
        have hf := detectStackNode_ok_fields hd
        exact ih _ _ (by simp [applyUpdate, hf.1, h])
    | search_code =>
      simp only [run, step]
      cases hd : searchCodeNode c rs.st with
      | error m => simpa [Outcome.runState] using h
      | ok u =>
        have hf := searchCodeNode_ok_fields hd
        exact ih _ _ (by simp [recordEntry_st, recordEntry_verifyCalls, applyUpdate, hf.1, h])
    | generate_fix =>
      simp only [run, step]
      exact ih _ _ (by simp [applyUpdate, generateFixNode, h])
    | review_fix =>
      simp only [run, step]
      cases hr : reviewFixNode c rs.reviewCalls rs.st with
      | error m => simpa [Outcome.runState] using h
      | ok u =>
        have hf := reviewFixNode_ok_fields hr
        exact ih _ _ (by simp [recordEntry_st, recordEntry_verifyCalls, applyUpdate, hf.1, h])
    | verify_fix =>
      simp only [run, step]
      cases hv : verifyFixNode c rs.verifyCalls rs.st with
      | error m => simpa [Outcome.runState] using h
      | ok u =>
        simp only [hv]
        have hf := verifyFixNode_ok_fields hv
        have hlen : (applyUpdate rs.st u).testResults.length = rs.verifyCalls + 1 := by
          simp [applyUpdate, hf.2.2.2.2.2.1, h]
        cases hsc : shouldContinue (applyUpdate rs.st u) with
        | none =>
          simp only [hsc]
          simp [Outcome.runState, recordEntry, hlen]
        | some n2 =>
          simp only [hsc]
          exact ih _ _ (by simp [recordEntry_st, recordEntry_verifyCalls, hlen])
    | submit_fix =>
      simp only [run, step]
      simp [Outcome.runState, applyUpdate, (submitFixNode_update_fields c rs.st).1, h]

lemma run_testResults_extends (c : Collaborators) :
    ∀ (fuel : Nat) (n : Node) (rs : RunState),
    rs.st.testResults <+: (run c fuel n rs).runState.st.testResults := by
  intro fuel
  induction fuel with
  | zero =>
    intro n rs
    simp [run, Outcome.runState]
  | succ fuel ih =>
    intro n rs
    cases n with
    | analyze_issue =>
      simp only [run, step]
      refine List.IsPrefix.trans ?_ (ih _ _)
      exact ⟨(analyzeIssueNode c rs.st).testResults, rfl⟩
    | detect_stack =>
      simp only [run, step]
      cases hd : detectStackNode c rs.st with
      | error m => exact List.prefix_rfl
      | ok u =>
        simp only [hd]
        refine List.IsPrefix.trans ?_ (ih _ _)
        exact ⟨u.testResults, rfl⟩
    | search_code =>
      simp only [run, step]
      cases hd : searchCodeNode c rs.st with
      | error m => exact List.prefix_rfl
      | ok u =>
        simp only [hd]
        refine List.IsPrefix.trans ?_ (ih _ _)
        rw [recordEntry_st]
        exact ⟨u.testResults, rfl⟩
    | generate_fix =>
      simp only [run, step]
      refine List.IsPrefix.trans ?_ (ih _ _)
      exact ⟨(generateFixNode c rs.genCalls rs.st).testResults, rfl⟩
    | review_fix =>
      simp only [run, step]
      cases hr : reviewFixNode c rs.reviewCalls rs.st with
      | error m => exact List.prefix_rfl
      | ok u =>
        simp only [hr]
        refine List.IsPrefix.trans ?_ (ih _ _)
        rw [recordEntry_st]
        exact ⟨u.testResults, rfl⟩
    | verify_fix =>
      simp only [run, step]
      cases hv : verifyFixNode c rs.verifyCalls rs.st with
      | error m => exact List.prefix_rfl
      | ok u =>
        simp only [hv]
        cases hsc : shouldContinue (applyUpdate rs.st u) with
        | none =>
          simp only [hsc]
          exact ⟨u.testResults, rfl⟩
        | some n2 =>
          simp only [hsc]
          refine List.IsPrefix.trans ?_ (ih _ _)
          rw [recordEntry_st]
          exact ⟨u.testResults, rfl⟩
    | submit_fix =>
      simp only [run, step]
      exact ⟨(submitFixNode c rs.st).1.testResults, rfl⟩

lemma run_fuel_mono_testResults (c : Collaborators) :
    ∀ (fuel d : Nat) (n : Node) (rs : RunState),
    (run c fuel n rs).runState.st.testResults <+:
      (run c (fuel + d) n rs).runState.st.testResults := by
  intro fuel
  induction fuel with
  | zero =>
    intro d n rs
    simpa [run, Outcome.runState] using run_testResults_extends c d n rs
  | succ fuel ih =>
    intro d n rs
    have hadd : fuel + 1 + d = (fuel + d) + 1 := by omega
    rw [hadd]
    cases hs : step c n rs with
    | error p =>
      cases p with
      | mk rs2 m => simp [run, hs, Outcome.runState, List.prefix_rfl]
    | ok p =>
      cases p with
      | mk rs2 next =>
        cases next with
        | none => simp [run, hs, Outcome.runState, List.prefix_rfl]
        | some n2 =>
          simp only [run, hs]
          exact ih d n2 rs2

/-- C4: testResults is append-only and counts verify_fix completions: for
every run from the entry point's initial state, at every step budget the
final testResults length equals the number of completed verify_fix
executions, and granting more budget only ever extends the list already
produced — no step removes or rewrites recorded entries. -/
theorem c4_testResults_append_only (c : Collaborators) (fuel d : Nat)
    (issueUrl repoPath : String) (opts : WorkflowOptions) :
    (invokeGraph c fuel issueUrl repoPath opts).runState.st.testResults.length =
      (invokeGraph c fuel issueUrl repoPath opts).runState.verifyCalls ∧
    (invokeGraph c fuel issueUrl repoPath opts).runState.st.testResults <+:
      (invokeGraph c (fuel + d) issueUrl repoPath opts).runState.st.testResults := by
  constructor
  · exact run_testResults_len c fuel _ _ (by simp [initialRunState, initialAgentState])
  · exact run_fuel_mono_testResults c fuel d _ _

lemma recordEntry_review_bounded (b : Option Node) (rs : RunState)
    (hb : nonReviewGenEntriesBounded rs = true) :
    nonReviewGenEntriesBounded (recordEntry Node.review_fix b rs) = true := by
  unfold recordEntry
  split
  · simpa [nonReviewGenEntriesBounded] using hb
  · exact hb

lemma run_nonReview_bounded (c : Collaborators) :
    ∀ (fuel : Nat) (n : Node) (rs : RunState),
    nonReviewGenEntriesBounded rs = true →
    ((n = Node.analyze_issue ∨ n = Node.detect_stack ∨ n = Node.search_code) →
      rs.st.attempts = 0) →
    nonReviewGenEntriesBounded (run c fuel n rs).runState = true := by
  intro fuel
  induction fuel with
  | zero =>
    intro n rs hb _
    simpa [run, Outcome.runState] using hb
  | succ fuel ih =>
    intro n rs hb h0
    cases n with
    | analyze_issue =>
      simp only [run, step]
      refine ih _ _ ?_ ?_
      · simpa [nonReviewGenEntriesBounded, applyUpdate] using hb
      · intro _
        have h00 : rs.st.attempts = 0 := h0 (Or.inl rfl)
        simp [applyUpdate, analyzeIssueNode, h00]
    | detect_stack =>
      simp only [run, step]
      cases hd : detectStackNode c rs.st with
      | error m => simpa [Outcome.runState] using hb
      | ok u =>
        simp only [hd]
        have hf := detectStackNode_ok_fields hd
        refine ih _ _ ?_ ?_
        · simpa [nonReviewGenEntriesBounded, applyUpdate] using hb
        · intro _
          have h00 : rs.st.attempts = 0 := h0 (Or.inr (Or.inl rfl))
          simp [applyUpdate, hf.2.1, h00]
    | search_code =>
      simp only [run, step]
      cases hd : searchCodeNode c rs.st with
      | error m => simpa [Outcome.runState] using hb
      | ok u =>
        simp only [hd]
        have hf := searchCodeNode_ok_fields hd
        have h00 : rs.st.attempts = 0 := h0 (Or.inr (Or.inr rfl))
        have hball : rs.genEntries.all
            (fun e => e.1 == Node.review_fix || decide (e.2 ≤ rs.st.maxAttempts)) = true := hb
        refine ih _ _ ?_ ?_
        · simp [recordEntry, nonReviewGenEntriesBounded, applyUpdate, hf.2.1, h00, hball]
        · intro hor
          simp at hor
    | generate_fix =>
      simp only [run, step]
      refine ih _ _ ?_ ?_
      · simpa [nonReviewGenEntriesBounded, applyUpdate] using hb
      · intro hor
        simp at hor
    | review_fix =>
      simp only [run, step]
      cases hr : reviewFixNode c rs.reviewCalls rs.st with
      | error m => simpa [Outcome.runState] using hb
      | ok u =>
        simp only [hr]
        refine ih _ _ ?_ ?_
        · apply recordEntry_review_bounded
          simpa [nonReviewGenEntriesBounded, applyUpdate] using hb
        · intro hor
          revert hor
          unfold reviewEdgeTarget
          split <;> simp
    | verify_fix =>
      simp only [run, step]
      cases hv : verifyFixNode c rs.verifyCalls rs.st with
      | error m => simpa [Outcome.runState] using hb
      | ok u =>
        simp only [hv]
        have hf := verifyFixNode_ok_fields hv
        cases hsc : shouldContinue (applyUpdate rs.st u) with
        | none =>
          simp only [hsc]
          simpa [Outcome.runState, recordEntry, nonReviewGenEntriesBounded, applyUpdate] using hb
        | some n2 =>
          simp only [hsc]
          have hn2 : n2 = Node.submit_fix ∨
              (n2 = Node.generate_fix ∧
                ¬ (applyUpdate rs.st u).attempts ≥ (applyUpdate rs.st u).maxAttempts) := by
            unfold shouldContinue at hsc
            split at hsc
            · exact Or.inl (Option.some.inj hsc).symm
            · split at hsc
              · cases hsc
              · rename_i hge
                exact Or.inr ⟨(Option.some.inj hsc).symm, hge⟩
          have hball : rs.genEntries.all
              (fun e => e.1 == Node.review_fix || decide (e.2 ≤ rs.st.maxAttempts)) = true := hb
          rcases hn2 with hsub | ⟨hgen, hge⟩
          · subst hsub
            refine ih _ _ ?_ ?_
            · simp [recordEntry, nonReviewGenEntriesBounded, applyUpdate, hball]
            · intro hor
              simp at hor
          · subst hgen
            have hmax : (applyUpdate rs.st u).maxAttempts = rs.st.maxAttempts := rfl
            rw [hmax] at hge
            have hle : (applyUpdate rs.st u).attempts ≤ rs.st.maxAttempts := by omega
            have hle2 : rs.st.attempts ≤ rs.st.maxAttempts := by
              simpa [applyUpdate, hf.1] using hle
            refine ih _ _ ?_ ?_
            · simp [recordEntry, nonReviewGenEntriesBounded, applyUpdate, hf.1, hball, hle2]
            · intro hor
              simp at hor
    | submit_fix =>
      simp only [run, step]
      simpa [Outcome.runState, nonReviewGenEntriesBounded, applyUpdate] using hb

/-- C1 (amended): attempts ≤ maxAttempts holds at every entry into
generate_fix that arrives via the initial edge from search_code or via the
retry route out of verify_fix, where shouldContinue enforces the ceiling
before re-entry; the review-rejection route out of review_fix carries no
such check (and can exceed the ceiling, as the counterexample shows).
Formally: in every run from the initial state, every recorded generate_fix
entry whose predecessor is not review_fix satisfies attempts ≤ maxAttempts. -/
theorem c1_bound_holds_off_review_route (c : Collaborators) (fuel : Nat)
    (issueUrl repoPath : String) (opts : WorkflowOptions) :
    nonReviewGenEntriesBounded (invokeGraph c fuel issueUrl repoPath opts).runState = true :=
  run_nonReview_bounded c fuel _ _
    (by simp [nonReviewGenEntriesBounded, initialRunState])
    (fun _ => by simp [initialRunState, initialAgentState])

lemma run_always_rejected_loops (c : Collaborators)
    (hrej : ∀ k, (c.review k).approved = false ∧ (c.review k).feedback ≠ "") :
    ∀ (fuel : Nat) (n : Node) (rs : RunState),
    loopInv n rs →
    (run c fuel n rs).isOutOfFuel = true ∧ (run c fuel n rs).runState.verifyCalls = 0 := by
  intro fuel
  induction fuel with
  | zero =>
    intro n rs hinv
    exact ⟨rfl, hinv.1⟩
  | succ fuel ih =>
    intro n rs hinv
    obtain ⟨hvc, hrepo, hfp, hrest⟩ := hinv
    cases n with
    | analyze_issue =>
      simp only [run, step]
      refine ih _ _ ⟨hvc, ?_, ?_, ?_⟩
      · simpa [applyUpdate, analyzeIssueNode] using hrepo
      · simpa [applyUpdate, analyzeIssueNode] using hfp
      · simp [applyUpdate, analyzeIssueNode]
    | detect_stack =>
      have hd : detectStackNode c rs.st = Except.ok { fingerprint := some c.fingerprint } := by
        simp [detectStackNode, hrepo]
      simp only [run, step, hd]
      refine ih _ _ ⟨hvc, ?_, ?_, ?_⟩
      · simpa [applyUpdate] using hrepo
      · simp [applyUpdate]
      · simpa [applyUpdate] using hrest
    | search_code =>
      simp only [run, step]
      cases hd : searchCodeNode c rs.st with
      | error m =>
        exfalso
        unfold searchCodeNode at hd
        split at hd
        · rename_i hcnd
          simp [hrest, hfp, hrepo] at hcnd
        · cases hd
      | ok u =>
        simp only [hd]
        have hf := searchCodeNode_ok_fields hd
        refine ih _ _ ⟨?_, ?_, ?_, ?_⟩
        · simpa [recordEntry_verifyCalls] using hvc
        · rw [recordEntry_st]
          simpa [applyUpdate] using hrepo
        · rw [recordEntry_st]
          simpa [applyUpdate, hf.2.2.2.2.2.1] using hfp
        · rw [recordEntry_st]
          simpa [applyUpdate, hf.2.2.2.2.1] using hrest
    | generate_fix =>
      simp only [run, step]
      refine ih _ _ ⟨hvc, ?_, ?_, ?_, ?_⟩
      · simpa [applyUpdate, generateFixNode] using hrepo
      · simpa [applyUpdate, generateFixNode] using hfp
      · simpa [applyUpdate, generateFixNode] using hrest
      · simp [applyUpdate, generateFixNode]
    | review_fix =>
      obtain ⟨hia, hcf⟩ := hrest
      have hr : reviewFixNode c rs.reviewCalls rs.st =
          Except.ok { reviewFeedback := some (c.review rs.reviewCalls).feedback } := by
        simp [reviewFixNode, hia, hcf, (hrej rs.reviewCalls).1]
      simp only [run, step, hr]
      have htgt : reviewEdgeTarget
          (applyUpdate rs.st { reviewFeedback := some (c.review rs.reviewCalls).feedback }) =
          Node.generate_fix := by
        simp [reviewEdgeTarget, applyUpdate, jsTruthyStr, (hrej rs.reviewCalls).2]
      rw [htgt]
      refine ih _ _ ⟨?_, ?_, ?_, ?_⟩
      · simpa [recordEntry_verifyCalls] using hvc
      · rw [recordEntry_st]
        simpa [applyUpdate] using hrepo
      · rw [recordEntry_st]
        simpa [applyUpdate] using hfp
      · rw [recordEntry_st]
        simpa [applyUpdate] using hia
    | verify_fix => exact hrest.elim
    | submit_fix => exact hrest.elim

/-- C3 (amended): when the reviewer rejects every generated fix with
nonempty feedback, the run never executes verify_fix — and it never
terminates at all: for every step budget the graph is still looping between
generate_fix and review_fix, because the review-rejection edge carries no
attempts-ceiling check, so neither the ceiling path nor any other terminal
state is ever reached. -/
theorem c3_always_rejected_never_terminates (c : Collaborators) (fuel : Nat)
    (issueUrl repoPath : String) (opts : WorkflowOptions)
    (hrepo : repoPath ≠ "")
    (hrej : ∀ k, (c.review k).approved = false ∧ (c.review k).feedback ≠ "") :
    (invokeGraph c fuel issueUrl repoPath opts).isOutOfFuel = true ∧
    (invokeGraph c fuel issueUrl repoPath opts).runState.verifyCalls = 0 :=
  run_always_rejected_loops c hrej fuel _ _
    ⟨rfl, by simp [initialRunState, initialAgentState, jsTruthyStr, hrepo],
     by simp [initialRunState, initialAgentState], trivial⟩

/-- C3 witness: the amended theorem applied to the concrete always-reject
collaborators with maxAttempts 1 and a 10-superstep budget. -/
theorem c3_always_rejected_never_terminates_witness :
    (invokeGraph alwaysRejectC 10 "u" "r" optsMax1).isOutOfFuel = true ∧
    (invokeGraph alwaysRejectC 10 "u" "r" optsMax1).runState.verifyCalls = 0 :=
  c3_always_rejected_never_terminates alwaysRejectC 10 "u" "r" optsMax1 (by decide)
    (fun _ => ⟨rfl, by show ¬ ("no" : String) = ""; decide⟩)

end OSSDev
